import Mathlib

/-!
# Shallow embedding of src/main.py (update-virtualbox-machines)

Python strings are modelled as lists of characters (`Str`); Python
`str.split("\r\n")`, `startswith`, `in`, `index` and slicing are modelled by
the list functions below.  Every external `VBoxManage` invocation is modelled
by an oracle `env : Nat → Str` giving the captured stdout+stderr text of the
k-th invocation of the run; the orchestrator additionally records every issued
command string and every sleep in an event trace.  Fallible Python code
(raised exceptions) is modelled with `Except`; the unbounded shutdown poll is
modelled with explicit fuel, `UpdResult.hang` meaning "has not returned within
the given number of poll iterations".
-/

set_option autoImplicit false

abbrev Str := List Char

/-- Python `s.startswith(pat)` (argument order: string, then pattern). -/
def pyStartswith : Str → Str → Bool
  | _, [] => true
  | [], _ :: _ => false
  | c :: s, p :: ps => (c == p) && pyStartswith s ps

/-- Python `needle in hay`: contiguous-substring test. -/
def pyIn : Str → Str → Bool
  | [], [] => true
  | _ :: _, [] => false
  | n, c :: t => pyStartswith (c :: t) n || pyIn n t

/-- Python `s.index(ch)`: index of the first occurrence of `ch`.  Returns
`s.length` when `ch` is absent; all call sites in the source either check
presence first or are guarded by a format validation that guarantees it. -/
def idxOf (ch : Char) : Str → Nat
  | [] => 0
  | c :: t => if c = ch then 0 else idxOf ch t + 1

/-- Helper for `splitCRLF`: prepend a character to the first chunk. -/
def consHead (c : Char) : List Str → List Str
  | [] => [[c]]
  | l :: ls => (c :: l) :: ls

/-- Python `s.split("\r\n")` — the source sets `newline = "\r\n"` and every
split in the program uses it.  Non-overlapping, left-to-right, and
`"".split(sep) == [""]`. -/
def splitCRLF : Str → List Str
  | [] => [[]]
  | '\r' :: '\n' :: rest => [] :: splitCRLF rest
  | c :: rest => consHead c (splitCRLF rest)

/-- Join a list of lines with the `"\r\n"` separator (used only to build
synthetic inputs for the theorems; inverse of `splitCRLF` on CR-free lines). -/
def joinCRLF : List Str → Str
  | [] => []
  | [l] => l
  | l :: ls => l ++ '\r' :: '\n' :: joinCRLF ls

/-- The completion sentinel, source line 8: `flag = "UpdateVirtualBoxMachinesFinalSignalOperationIsComplete"`. -/
def flag : Str := "UpdateVirtualBoxMachinesFinalSignalOperationIsComplete".toList

/-- Literal `"error:"` — the transient-dispatch-failure marker (line 209). -/
def errMarker : Str := "error:".toList

/-- Literal `"successfully started"` — the boot acknowledgment phrase (line 191). -/
def startedMarker : Str := "successfully started".toList

/-- Literal `"poweroff"`. -/
def pwStr : Str := "poweroff".toList

/-- Literal `"VMState"`. -/
def vmstateKey : Str := "VMState".toList

/-- Literal `"ostype"`. -/
def ostypeKey : Str := "ostype".toList

/-- Literal `"Windows"`. -/
def windowsStr : Str := "Windows".toList

/-- Message of the exception raised by `find_property_value` (line 69).  The
source interpolates the property name and quotes it; the quotes are elided
here (the exact message text plays no role in the control flow). -/
def fpvNotFound : String := "find_property_value() - Property not found"

/-- Message of the `ValueError` Python raises for `line.index(ch)` when `ch`
is absent from `line`. -/
def valueError : String := "ValueError: substring not found"

/-- Message of the exception raised by `parse_machines` (line 109); the
quotes around `list vms` are elided. -/
def pmError : String := "Command list vms returned unknown format"

/-- Body of `find_property_value` applied to one matching line:
`line[line.index("\"") + 1:-1]`, i.e. everything after the first double quote
with the final character dropped; raises `ValueError` when the line holds no
double quote. -/
def fpvExtract (line : Str) : Except String Str :=
  if idxOf '\"' line < line.length then
    .ok ((line.drop (idxOf '\"' line + 1)).dropLast)
  else .error valueError

/-- The line loop of `find_property_value` (lines 65-69). -/
def fpvLines (property : Str) : List Str → Except String Str
  | [] => .error fpvNotFound
  | line :: rest =>
    if pyStartswith line property then fpvExtract line
    else fpvLines property rest

/-- `find_property_value(vminfo, property)` (lines 62-69): first line of the
CRLF-split of `vminfo` that starts with `property` wins; raises when no line
matches. -/
def find_property_value (vminfo property : Str) : Except String Str :=
  fpvLines property (splitCRLF vminfo)

/-- One machine record as built by `parse_machines` (`{"name": ..., "uuid": ...}`). -/
structure VM where
  name : Str
  uuid : Str
deriving DecidableEq, Repr

/-- The line-format validation of `parse_machines` (lines 103-108): exactly
two double quotes, four dashes, one `{` and one `}`. -/
def vmLineOk (line : Str) : Bool :=
  line.count '\"' == 2 && line.count '-' == 4 && line.count '{' == 1 && line.count '}' == 1

/-- The field extraction of `parse_machines` (lines 111-115): drop the first
character, the name is everything before the next double quote, the uuid is
everything from three characters past that quote up to the final character
(dropping the closing brace). -/
def parse_vm_line (line : Str) : VM :=
  let l := line.drop 1
  { name := l.take (idxOf '\"' l)
    uuid := (l.drop (idxOf '\"' l + 3)).dropLast }

/-- The line loop of `parse_machines` (lines 98-115).  `.ok (some vms)`
models `return vms` (blank-line branch), `.error` models the raised
exception, and `.ok none` models the Python function falling off the end of
the loop and implicitly returning `None`. -/
def pmLines : List Str → Except String (Option (List VM))
  | [] => .ok none
  | line :: rest =>
    if line = [] then .ok (some [])
    else if vmLineOk line then
      match pmLines rest with
      | .ok (some vms) => .ok (some (parse_vm_line line :: vms))
      | other => other
    else .error pmError

/-- `parse_machines(list)` (lines 94-115). -/
def parse_machines (text : Str) : Except String (Option (List VM)) :=
  pmLines (splitCRLF text)

/-- The recognized options, as assembled by `parse_arguments` (lines 22-28). -/
structure Args where
  username : Str
  password : Str
  remove : Bool
  shutdown : Bool
  verbose : Bool
deriving DecidableEq, Repr

/-- Package-manager presence flags; the source iterates the probe dict in
insertion order: `apt`, then `snap` (lines 134-137). -/
structure Managers where
  apt : Bool
  snap : Bool
deriving DecidableEq, Repr

/-- The privilege-escalation wrapper substituted for every `{0}` placeholder
in `get_update_command` (line 162): `"echo {password} | sudo -S"`. -/
def sudo_wrap (password : Str) : Str :=
  "echo ".toList ++ password ++ " | sudo -S".toList

/-- `get_update_command(managers, args)` (lines 147-162).  The source builds
a template with `{0}` placeholders, appends `"echo {flag}"` with the sentinel
already substituted, and finally substitutes `sudo_wrap password` for every
remaining placeholder; since neither the sentinel nor the literal fragments
contain braces, the result is exactly this concatenation. -/
def get_update_command (managers : Managers) (args : Args) : Str :=
  let s := sudo_wrap args.password
  (if managers.apt then
      s ++ " apt update && ".toList ++ s ++ " apt upgrade -y && ".toList
        ++ (if args.remove then s ++ " apt autoremove -y && ".toList else [])
    else [])
  ++ (if managers.snap then s ++ " snap refresh && ".toList else [])
  ++ "echo ".toList ++ flag

/-- The command string handed to `vboxmanage` by `run_command` (lines
164-171).  The source concatenates adjacent string literals with no space
after `--password {2}`, so `run` follows the password directly; embedded
faithfully. -/
def run_command_str (vm : VM) (args : Args) (command : Str) : Str :=
  "guestcontrol ".toList ++ vm.uuid ++ " --username ".toList ++ args.username
    ++ " --password ".toList ++ args.password
    ++ "run --exe \"/bin/sh\" -- \"/bin/sh\" \"-c\" \"".toList ++ command ++ "\"".toList

/-- `showvminfo {uuid} --machinereadable` (lines 176 and 238). -/
def showvminfo_cmd (vm : VM) : Str :=
  "showvminfo ".toList ++ vm.uuid ++ " --machinereadable".toList

/-- `startvm {uuid}` (line 187). -/
def startvm_cmd (vm : VM) : Str :=
  "startvm ".toList ++ vm.uuid

/-- `controlvm {uuid} acpipowerbutton` (line 233). -/
def powerbutton_cmd (vm : VM) : Str :=
  "controlvm ".toList ++ vm.uuid ++ " acpipowerbutton".toList

/-- An observable event of a run: a `VBoxManage` command issuance (the
command string, without the binary path, which belongs to the excluded I/O
shim) or a `time.sleep` of the given number of seconds. -/
inductive Ev where
  | call (cmd : Str)
  | sleep (n : Nat)
deriving DecidableEq, Repr

/-- Result of `update` on one machine: normal return value, propagated
exception, or still inside the unbounded shutdown poll after the given fuel. -/
inductive UpdResult where
  | ret (b : Bool)
  | exc (msg : String)
  | hang
deriving DecidableEq, Repr

/-- Outcome of one `run_update_command` call (lines 123-129): the captured
response of the actual update command, the next call index, and the three
issued guest commands (the two `which` probes and the update command). -/
structure CallOut where
  response : Str
  k : Nat
  trace : List Ev
deriving Repr

/-- `run_update_command(vm, args)` (lines 123-129): probe `which apt` and
`which snap` via `run_command` (a manager is present iff the captured probe
output is non-empty, Python truthiness, lines 139-143), build the update
command from the discovered managers, and run it. -/
def run_update_command_run (env : Nat → Str) (vm : VM) (args : Args) (k : Nat) : CallOut :=
  let managers : Managers := ⟨!(env k).isEmpty, !(env (k + 1)).isEmpty⟩
  let cmd := get_update_command managers args
  { response := env (k + 2)
    k := k + 3
    trace := [Ev.call (run_command_str vm args ("which apt".toList)),
              Ev.call (run_command_str vm args ("which snap".toList)),
              Ev.call (run_command_str vm args cmd)] }

/-- Outcome of the dispatch-retry loop: the last captured response, the
`error_detected` flag, the number of attempts that actually ran, the next
call index, and the trace. -/
structure DispatchOut where
  response : Str
  error_detected : Bool
  attempts : Nat
  k : Nat
  trace : List Ev
deriving Repr

/-- The dispatch-retry loop of `update` (lines 196-212), with the remaining
attempt budget as the recursion measure (the source counts `attempt_count`
up and stops once `5 < attempt_count`; the budget argument is
`5 - attempt_count` at loop entry, so the top-level call uses budget 5).
A response containing `"error:"` sleeps 30 and retries; the first response
without the marker ends the loop with `error_detected = False`; an exhausted
budget ends it with `error_detected = True`. -/
def dispatch_go (env : Nat → Str) (vm : VM) (args : Args) : Str → Nat → Nat → DispatchOut
  | response, k, 0 => ⟨response, true, 0, k, []⟩
  | _, k, n + 1 =>
    let c := run_update_command_run env vm args k
    if pyIn errMarker c.response then
      let d := dispatch_go env vm args c.response c.k n
      ⟨d.response, d.error_detected, d.attempts + 1, d.k, c.trace ++ Ev.sleep 30 :: d.trace⟩
    else ⟨c.response, false, 1, c.k, c.trace⟩

/-- Outcome of the completion poll: the `error_detected` flag, the number of
sentinel checks performed, and the trace (sleeps only — the loop issues no
command). -/
structure CompletionOut where
  error_detected : Bool
  checks : Nat
  trace : List Ev
deriving Repr

/-- The completion poll of `update` (lines 219-228), with the remaining
check budget as the recursion measure (the source counts to `20 <
attempt_count`, so the top-level call uses budget 20).  Each iteration
re-checks the same captured dispatch `response` for the sentinel; a miss
sleeps 30 and retries; an exhausted budget sets `error_detected = True`. -/
def completion_go (response : Str) : Nat → CompletionOut
  | 0 => ⟨true, 0, []⟩
  | n + 1 =>
    if pyIn flag response then ⟨false, 1, []⟩
    else
      let c := completion_go response n
      ⟨c.error_detected, c.checks + 1, Ev.sleep 30 :: c.trace⟩

/-- Outcome of the shutdown poll: result, next call index, trace. -/
structure ShutdownOut where
  result : UpdResult
  k : Nat
  trace : List Ev
deriving Repr

/-- The unbounded shutdown poll of `update` (lines 237-241): fetch
`showvminfo`, stop when `VMState` is `poweroff`, otherwise sleep 15 and poll
again, with no budget in the source; `fuel` only truncates the embedding
(`UpdResult.hang` = still polling after `fuel` iterations).  An exception
from `find_property_value` propagates. -/
def shutdown_go (env : Nat → Str) (vm : VM) : Nat → Nat → ShutdownOut
  | k, 0 => ⟨.hang, k, []⟩
  | k, fuel + 1 =>
    match find_property_value (env k) vmstateKey with
    | .error m => ⟨.exc m, k + 1, [Ev.call (showvminfo_cmd vm)]⟩
    | .ok s =>
      if s = pwStr then ⟨.ret true, k + 1, [Ev.call (showvminfo_cmd vm)]⟩
      else
        let r := shutdown_go env vm (k + 1) fuel
        ⟨r.result, r.k, Ev.call (showvminfo_cmd vm) :: Ev.sleep 15 :: r.trace⟩

/-- Everything observable about one `update(vm, args)` run. -/
structure RunOut where
  result : UpdResult
  k : Nat
  trace : List Ev
  dispatch_attempts : Nat
  completion_checks : Nat
  error_detected : Bool
deriving Repr

/-- `update(vm, args)` (lines 173-245), against the oracle `env`.

* eligibility (lines 176-183): fetch `showvminfo`; return `False` when
  `VMState` is not `poweroff` or when `ostype` equals `Windows` (exact string
  comparison in the source); a missing property raises;
* boot (lines 187-192): issue `startvm`, sleep 60, return `False` when the
  captured response lacks `successfully started`;
* dispatch retry (lines 196-212), completion poll (lines 219-228): see
  `dispatch_go` and `completion_go`; when dispatch already set
  `error_detected` the completion loop body never runs;
* shutdown (lines 233-245): issue `acpipowerbutton`, sleep 30, poll; then
  `return True` — the source returns `True` regardless of `error_detected`.

`dispatch_attempts`, `completion_checks` and the final `error_detected` are
exposed for the budget/outcome theorems; they do not feed back into control
flow (the source only prints them when verbose). -/
def update (env : Nat → Str) (vm : VM) (args : Args) (fuel : Nat) : RunOut :=
  let t0 : List Ev := [Ev.call (showvminfo_cmd vm)]
  match find_property_value (env 0) vmstateKey with
  | .error m => ⟨.exc m, 1, t0, 0, 0, false⟩
  | .ok st =>
    if st = pwStr then
      match find_property_value (env 0) ostypeKey with
      | .error m => ⟨.exc m, 1, t0, 0, 0, false⟩
      | .ok os =>
        if os = windowsStr then ⟨.ret false, 1, t0, 0, 0, false⟩
        else
          let t1 := t0 ++ [Ev.call (startvm_cmd vm), Ev.sleep 60]
          if pyIn startedMarker (env 1) then
            let d := dispatch_go env vm args (env 1) 2 5
            let c := if d.error_detected then (⟨true, 0, []⟩ : CompletionOut)
                     else completion_go d.response 20
            let s := shutdown_go env vm (d.k + 1) fuel
            ⟨s.result, s.k,
             t1 ++ d.trace ++ c.trace ++ Ev.call (powerbutton_cmd vm) :: Ev.sleep 30 :: s.trace,
             d.attempts, c.checks, c.error_detected⟩
          else ⟨.ret false, 2, t1, 0, 0, false⟩
    else ⟨.ret false, 1, t0, 0, 0, false⟩

/-- A synthetic machine-info line of shape `key="value"`. -/
def kvLine (k v : Str) : Str := k ++ '=' :: '\"' :: (v ++ ['\"'])

/-- A synthetic machine-info text: `key="value"` lines joined with CRLF. -/
def infoText (pairs : List (Str × Str)) : Str :=
  joinCRLF (pairs.map (fun p => kvLine p.1 p.2))

/-! ## Concrete inputs used by the witnesses and counterexamples -/

/-- A sample machine record. -/
def vm0 : VM := ⟨"a".toList, "1-2-3-4-5".toList⟩

/-- Sample options (password chosen free of every marker substring). -/
def args0 : Args := ⟨"u".toList, "zz".toList, false, false, false⟩

/-- Options whose password is literally `autoremove`. -/
def argsAuto : Args := ⟨"u".toList, "autoremove".toList, false, false, false⟩

/-- Sample options with autoremove enabled. -/
def argsR : Args := ⟨"u".toList, "zz".toList, true, false, false⟩

/-- Options whose password is literally `echo`. -/
def argsEcho : Args := ⟨"u".toList, "echo".toList, false, false, false⟩

/-- `showvminfo` text of an eligible machine (powered off, Linux guest). -/
def eligInfo : Str := "VMState=\"poweroff\"\r\nostype=\"Ubuntu_64\"".toList

/-- `showvminfo` text of a powered-off machine with a Windows-variant guest
type that is not the exact string `Windows`. -/
def winVarInfo : Str := "VMState=\"poweroff\"\r\nostype=\"Windows10_64\"".toList

/-- `showvminfo` text reporting `poweroff`. -/
def pwInfo : Str := "VMState=\"poweroff\"".toList

/-- `showvminfo` text reporting a running machine. -/
def runInfo : Str := "VMState=\"running\"".toList

/-- A `startvm` acknowledgment. -/
def startedResp : Str := "VM ... successfully started".toList

/-- A dispatch response carrying the error marker. -/
def errResp : Str := "error: boom".toList

/-- Environment driving the C1 failing run: eligible machine, acknowledged
start, every guest dispatch response carries `error:` (indices 2-16 cover the
five attempts of three guest calls each; 17 answers `acpipowerbutton`), and
the shutdown poll immediately sees `poweroff`. -/
def envC1 : Nat → Str := fun k =>
  if k = 0 then eligInfo
  else if k = 1 then startedResp
  else if k ≤ 17 then errResp
  else pwInfo

/-- Environment reporting a powered-off machine with guest type
`Windows10_64`; responses after the listing query are empty. -/
def envWinVar : Nat → Str := fun k => if k = 0 then winVarInfo else []

/-- Environment reporting a running machine on every query. -/
def envRun : Nat → Str := fun _ => runInfo

/-- Environment reporting a powered-off machine on every query. -/
def envPw : Nat → Str := fun _ => pwInfo

/-- Environment for the C8 witness: eligible machine, acknowledged start,
all guest responses equal to `pwInfo` (no error marker, no sentinel), and
every shutdown poll sees `poweroff`. -/
def envC8 : Nat → Str := fun k =>
  if k = 0 then eligInfo
  else if k = 1 then startedResp
  else pwInfo

/-- A well-formed machine-listing line. -/
def lineA : Str := "\"a\" {1-2-3-4-5}".toList

/-- A malformed machine-listing line. -/
def lineBad : Str := "oops".toList

/-- Listing text whose second line is malformed. -/
def textC6bad : Str := "\"a\" {1-2-3-4-5}\r\noops\r\nrest".toList

/-- Listing text with one machine line terminated by a blank line. -/
def textC6ok : Str := "\"a\" {1-2-3-4-5}\r\n\r\njunk".toList

/-- Listing text with one well-formed line and no blank line at all. -/
def textC9 : Str := "\"a\" {1-2-3-4-5}".toList

/-- Machine-info text where a longer-named property precedes the queried one. -/
def textC7 : Str := "VMStateChangeTime=\"x\"\r\nVMState=\"poweroff\"".toList

/-- Machine-info text holding only the longer-named property. -/
def textC7b : Str := "VMStateChangeTime=\"x\"".toList

/-- Literal `"running"`. -/
def runStr : Str := "running".toList

/-- Literal `"Ubuntu_64"`. -/
def ubuntuStr : Str := "Ubuntu_64".toList

/-- Literal `"Windows10_64"`. -/
def winVarStr : Str := "Windows10_64".toList

/-- Literal `"autoremove"`. -/
def autoStr : Str := "autoremove".toList

/-- Literal `"apt update"`. -/
def aptUpdateStr : Str := "apt update".toList

/-- Literal `"apt upgrade"`. -/
def aptUpgradeStr : Str := "apt upgrade".toList

/-- Literal `" apt update"` (with the separating space). -/
def spAptUpdate : Str := " apt update".toList

/-- Literal `" apt upgrade -y"` (with the separating space). -/
def spAptUpgrade : Str := " apt upgrade -y".toList

/-- Literal `" snap refresh"` (with the separating space). -/
def spSnapRefresh : Str := " snap refresh".toList

/-- Literal `" apt autoremove -y"` (with the separating space). -/
def spAptAutoremove : Str := " apt autoremove -y".toList

/-- Literal `"sudo"`. -/
def sudoStr : Str := "sudo".toList

/-- The sentinel echo that terminates every constructed guest command. -/
def echoFlag : Str := "echo ".toList ++ flag

/-- The space-free-boundary block between the two password occurrences of an
apt-only, no-autoremove command. -/
def midAptUpdate : Str := "| sudo -S apt update && echo".toList

/-- The block between the second password occurrence and the sentinel echo. -/
def midAptUpgrade : Str := "| sudo -S apt upgrade -y && echo".toList

/-- Literal `"x"`. -/
def xStr : Str := "x".toList

/-- Literal `"VMStateChangeTime"`. -/
def vmsctKey : Str := "VMStateChangeTime".toList

/-- The trailing line of `textC6bad`. -/
def lineRest : Str := "rest".toList

/-- The trailing line of `textC6ok`. -/
def lineJunk : Str := "junk".toList

/-! ## Helper lemmas: substring primitives -/

theorem pyStartswith_self_append (n t : Str) : pyStartswith (n ++ t) n = true := by
  induction n with
  | nil => cases t <;> rfl
  | cons c s ih => simp [pyStartswith, ih]

theorem pyStartswith_extend {a n : Str} (b : Str) (h : pyStartswith a n = true) :
    pyStartswith (a ++ b) n = true := by
  induction a generalizing n with
  | nil =>
    cases n with
    | nil => cases b <;> rfl
    | cons p ps => simp [pyStartswith] at h
  | cons c s ih =>
    cases n with
    | nil => rfl
    | cons p ps =>
      simp only [pyStartswith, Bool.and_eq_true] at h ⊢
      exact ⟨h.1, ih h.2⟩

theorem pyIn_cons (n : Str) (c : Char) (t : Str) :
    pyIn n (c :: t) = (pyStartswith (c :: t) n || pyIn n t) := by
  cases n <;> rfl

theorem pyIn_nil_needle (t : Str) : pyIn [] t = true := by
  cases t <;> rfl

theorem pyIn_self (n t : Str) : pyIn n (n ++ t) = true := by
  cases n with
  | nil => exact pyIn_nil_needle t
  | cons c s =>
    rw [List.cons_append, pyIn_cons, ← List.cons_append, pyStartswith_self_append]
    rfl

theorem pyIn_append_left {n b : Str} (a : Str) (h : pyIn n b = true) :
    pyIn n (a ++ b) = true := by
  induction a with
  | nil => simpa using h
  | cons c t ih =>
    rw [List.cons_append, pyIn_cons, ih]
    simp

theorem pyIn_append_right {n a : Str} (b : Str) (h : pyIn n a = true) :
    pyIn n (a ++ b) = true := by
  induction a with
  | nil =>
    cases n with
    | nil => exact pyIn_nil_needle _
    | cons p ps => simp [pyIn] at h
  | cons c t ih =>
    rw [pyIn_cons] at h
    rw [List.cons_append, pyIn_cons]
    rcases Bool.or_eq_true_iff.mp h with h | h
    · rw [← List.cons_append, pyStartswith_extend b h]
      rfl
    · rw [ih h]
      simp

/-- A pattern without spaces cannot be a prefix of `a ++ " " ++ b` beyond `a`. -/
theorem pyStartswith_space {n : Str} (hn : ' ' ∉ n) (a b : Str) :
    pyStartswith (a ++ ' ' :: b) n = pyStartswith a n := by
  induction a generalizing n with
  | nil =>
    cases n with
    | nil => rfl
    | cons p ps =>
      have hp : p ≠ ' ' := fun h => hn (h ▸ List.mem_cons_self p ps)
      simp only [List.nil_append, pyStartswith, Bool.and_eq_false_iff]
      left
      simpa using fun h => hp h.symm
  | cons c t ih =>
    cases n with
    | nil => rfl
    | cons p ps =>
      have hps : ' ' ∉ ps := fun h => hn (List.mem_cons_of_mem p h)
      rw [List.cons_append]
      show ((c == p) && pyStartswith (t ++ ' ' :: b) ps) = ((c == p) && pyStartswith t ps)
      rw [ih hps]

/-- Occurrences of a space-free, non-empty pattern in `a ++ " " ++ b` lie
entirely inside `a` or entirely inside `b`. -/
theorem pyIn_split_space {n : Str} (hn : ' ' ∉ n) (hne : n ≠ []) (a b : Str) :
    pyIn n (a ++ ' ' :: b) = (pyIn n a || pyIn n b) := by
  induction a with
  | nil =>
    rcases n with _ | ⟨p, ps⟩
    · exact absurd rfl hne
    · have hp : p ≠ ' ' := fun h => hn (h ▸ List.mem_cons_self p ps)
      rw [List.nil_append, pyIn_cons]
      show (pyStartswith (' ' :: b) (p :: ps) || pyIn (p :: ps) b) = (pyIn (p :: ps) [] || pyIn (p :: ps) b)
      have : pyStartswith (' ' :: b) (p :: ps) = false := by
        show ((' ' == p) && pyStartswith b ps) = false
        simp [Bool.and_eq_false_iff]
        intro h
        exact absurd h.symm hp
      rw [this]
      rfl
  | cons c t ih =>
    rw [List.cons_append, pyIn_cons, pyIn_cons, ← List.cons_append, pyStartswith_space hn, ih,
      Bool.or_assoc]

/-! ## Helper lemmas: CRLF splitting -/

theorem splitCRLF_cons_ne (c : Char) (t : Str) (hc : c ≠ '\r') :
    splitCRLF (c :: t) = consHead c (splitCRLF t) := by
  rw [splitCRLF.eq_def]
  split
  · simp_all
  · simp_all
  · simp_all

theorem splitCRLF_crlf (rest : Str) :
    splitCRLF ('\r' :: '\n' :: rest) = [] :: splitCRLF rest := rfl

theorem splitCRLF_no_cr {l : Str} (h : '\r' ∉ l) : splitCRLF l = [l] := by
  induction l with
  | nil => rfl
  | cons c t ih =>
    have hc : c ≠ '\r' := fun he => h (he ▸ List.mem_cons_self c t)
    have ht : '\r' ∉ t := fun hm => h (List.mem_cons_of_mem c hm)
    rw [splitCRLF_cons_ne c t hc, ih ht]
    rfl

theorem splitCRLF_append_crlf {l : Str} (h : '\r' ∉ l) (r : Str) :
    splitCRLF (l ++ '\r' :: '\n' :: r) = l :: splitCRLF r := by
  induction l with
  | nil => rfl
  | cons c t ih =>
    have hc : c ≠ '\r' := fun he => h (he ▸ List.mem_cons_self c t)
    have ht : '\r' ∉ t := fun hm => h (List.mem_cons_of_mem c hm)
    rw [List.cons_append, splitCRLF_cons_ne c _ hc, ih ht]
    rfl

theorem splitCRLF_join {lines : List Str} (hne : lines ≠ [])
    (h : ∀ l ∈ lines, '\r' ∉ l) : splitCRLF (joinCRLF lines) = lines := by
  induction lines with
  | nil => exact absurd rfl hne
  | cons l ls ih =>
    cases ls with
    | nil => exact splitCRLF_no_cr (h l (List.mem_cons_self l []))
    | cons l2 ls2 =>
      have hl : '\r' ∉ l := h l (List.mem_cons_self l _)
      have hrest : ∀ x ∈ l2 :: ls2, '\r' ∉ x := fun x hx => h x (List.mem_cons_of_mem l hx)
      show splitCRLF (l ++ '\r' :: '\n' :: joinCRLF (l2 :: ls2)) = l :: l2 :: ls2
      rw [splitCRLF_append_crlf hl, ih (List.cons_ne_nil l2 ls2) hrest]

/-! ## Helper lemmas: property extraction from key="value" lines -/

theorem idxOf_append_not_mem {ch : Char} {a : Str} (h : ch ∉ a) (b : Str) :
    idxOf ch (a ++ b) = a.length + idxOf ch b := by
  induction a with
  | nil => simp
  | cons c t ih =>
    have hc : c ≠ ch := fun he => h (he ▸ List.mem_cons_self c t)
    have ht : ch ∉ t := fun hm => h (List.mem_cons_of_mem c hm)
    rw [List.cons_append]
    show (if c = ch then 0 else idxOf ch (t ++ b) + 1) = (c :: t).length + idxOf ch b
    rw [if_neg hc, ih ht]
    simp [List.length_cons]
    omega

/-- A key=value line starts with the query iff the key does, provided the
query holds no `=` (every key of the machine-readable format is `=`-free). -/
theorem pyStartswith_keyline {q : Str} (hq : '=' ∉ q) (k v : Str) :
    pyStartswith (kvLine k v) q = pyStartswith k q := by
  induction k generalizing q with
  | nil =>
    cases q with
    | nil => rfl
    | cons p ps =>
      have hp : p ≠ '=' := fun he => hq (he ▸ List.mem_cons_self p ps)
      show (('=' == p) && _) = false
      simp [Bool.and_eq_false_iff]
      intro h
      exact absurd h.symm hp
  | cons c t ih =>
    cases q with
    | nil => rfl
    | cons p ps =>
      have hps : '=' ∉ ps := fun hm => hq (List.mem_cons_of_mem p hm)
      show ((c == p) && pyStartswith (kvLine t v) ps) = ((c == p) && pyStartswith t ps)
      rw [ih hps]

/-- Extraction from a well-formed key=value line returns exactly the value,
provided the key holds no double quote. -/
theorem fpvExtract_keyline {k : Str} (hk : '\"' ∉ k) (v : Str) :
    fpvExtract (kvLine k v) = .ok v := by
  have hidx : idxOf '\"' (kvLine k v) = k.length + 1 := by
    rw [kvLine, idxOf_append_not_mem hk]
    show k.length + (if '=' = '\"' then 0 else idxOf '\"' ('\"' :: (v ++ ['\"'])) + 1) = k.length + 1
    rw [if_neg (by decide)]
    show k.length + ((if '\"' = '\"' then 0 else _) + 1) = k.length + 1
    rw [if_pos rfl]
  have hlen : (kvLine k v).length = k.length + (v.length + 3) := by
    simp [kvLine, List.length_append]
  have hdrop : (kvLine k v).drop (k.length + 1 + 1) = v ++ ['\"'] := by
    have h2 : k.length + 1 + 1 = k.length + 2 := rfl
    rw [h2, kvLine, List.drop_append 2]
    rfl
  rw [fpvExtract, hidx, hlen, if_pos (by omega), hdrop, List.dropLast_concat]

/-! ## Helper lemmas: the retry / poll stages -/

theorem dispatch_attempts_le (env : Nat → Str) (vm : VM) (args : Args) :
    ∀ (r : Str) (k n : Nat), (dispatch_go env vm args r k n).attempts ≤ n := by
  intro r k n
  induction n generalizing r k with
  | zero => exact Nat.le_refl 0
  | succ n ih =>
    simp only [dispatch_go]
    split
    · exact Nat.succ_le_succ (ih _ _)
    · exact Nat.succ_le_succ (Nat.zero_le n)

theorem completion_checks_le (r : Str) : ∀ n : Nat, (completion_go r n).checks ≤ n := by
  intro n
  induction n with
  | zero => exact Nat.le_refl 0
  | succ n ih =>
    simp only [completion_go]
    split
    · exact Nat.succ_le_succ (Nat.zero_le n)
    · exact Nat.succ_le_succ ih

theorem completion_go_found {r : Str} (h : pyIn flag r = true) (n : Nat) :
    completion_go r (n + 1) = ⟨false, 1, []⟩ := by
  simp only [completion_go, h]
  rfl

theorem completion_go_missed {r : Str} (h : pyIn flag r = false) :
    ∀ n : Nat, completion_go r n = ⟨true, n, List.replicate n (Ev.sleep 30)⟩ := by
  intro n
  induction n with
  | zero => rfl
  | succ n ih =>
    simp only [completion_go, h, ih]
    rfl

theorem shutdown_go_hang (env : Nat → Str) (vm : VM) :
    ∀ (fuel k : Nat),
      (∀ j, j < fuel → ∃ s, find_property_value (env (k + j)) vmstateKey = .ok s ∧ s ≠ pwStr) →
      (shutdown_go env vm k fuel).result = .hang := by
  intro fuel
  induction fuel with
  | zero => intro k _; rfl
  | succ fuel ih =>
    intro k h
    obtain ⟨s, hs, hsne⟩ := h 0 (Nat.zero_lt_succ fuel)
    rw [Nat.add_zero] at hs
    simp only [shutdown_go, hs, if_neg hsne]
    exact ih (k + 1) fun j hj => by
      have := h (j + 1) (Nat.succ_lt_succ hj)
      rwa [show k + (j + 1) = k + 1 + j by omega] at this

theorem shutdown_go_first_poll (env : Nat → Str) (vm : VM) (k fuel : Nat)
    (h : find_property_value (env k) vmstateKey = .ok pwStr) (hf : 0 < fuel) :
    (shutdown_go env vm k fuel).result = .ret true ∧
      (shutdown_go env vm k fuel).trace = [Ev.call (showvminfo_cmd vm)] := by
  cases fuel with
  | zero => exact absurd hf (Nat.lt_irrefl 0)
  | succ fuel =>
    simp only [shutdown_go, h, if_pos rfl]
    exact ⟨rfl, rfl⟩

/-! ## Helper lemmas: more substring facts -/

theorem pyStartswith_refl (q : Str) : pyStartswith q q = true := by
  have h := pyStartswith_self_append q []
  rwa [List.append_nil] at h

theorem pyIn_of_startswith (n hay : Str) (h : pyStartswith hay n = true) :
    pyIn n hay = true := by
  cases hay with
  | nil =>
    cases n with
    | nil => rfl
    | cons p ps => simp [pyStartswith] at h
  | cons c t =>
    rw [pyIn_cons, h]
    rfl

theorem pyStartswith_append_both (a b c : Str) :
    pyStartswith (a ++ b) (a ++ c) = pyStartswith b c := by
  induction a with
  | nil => rfl
  | cons x t ih =>
    rw [List.cons_append, List.cons_append]
    show ((x == x) && pyStartswith (t ++ b) (t ++ c)) = pyStartswith b c
    rw [BEq.refl, ih, Bool.true_and]

/-- The pattern `s ++ u` occurs at the head of `s ++ t` whenever `t`
decomposes as `u ++ rest`. -/
theorem prefix_match (s u rest t : Str) (h : t = u ++ rest) :
    pyStartswith (s ++ t) (s ++ u) = true := by
  subst h
  rw [pyStartswith_append_both]
  exact pyStartswith_self_append u rest

/-! ## Helper lemmas: find_property_value over synthetic info texts -/

theorem cr_not_mem_kvLine {k v : Str} (hk : '\r' ∉ k) (hv : '\r' ∉ v) :
    '\r' ∉ kvLine k v := by
  intro h
  rw [kvLine] at h
  rcases List.mem_append.mp h with h | h
  · exact hk h
  · rcases List.mem_cons.mp h with h | h
    · exact absurd h (by decide)
    · rcases List.mem_cons.mp h with h | h
      · exact absurd h (by decide)
      · rcases List.mem_append.mp h with h | h
        · exact hv h
        · rcases List.mem_cons.mp h with h | h
          · exact absurd h (by decide)
          · exact absurd h (List.not_mem_nil _)

theorem fpvLines_found (q v : Str) (hq : '=' ∉ q) (hqq : '\"' ∉ q) :
    ∀ (pre rest : List (Str × Str)),
      (∀ p ∈ pre, pyStartswith p.1 q = false) →
      fpvLines q ((pre ++ (q, v) :: rest).map (fun p => kvLine p.1 p.2)) = .ok v := by
  intro pre
  induction pre with
  | nil =>
    intro rest _
    simp only [List.nil_append, List.map_cons]
    show (if pyStartswith (kvLine q v) q = true then fpvExtract (kvLine q v) else _) = .ok v
    rw [pyStartswith_keyline hq, pyStartswith_refl, if_pos rfl, fpvExtract_keyline hqq]
  | cons p pre ih =>
    intro rest hpre
    have h1 : pyStartswith (kvLine p.1 p.2) q = false := by
      rw [pyStartswith_keyline hq]
      exact hpre p (List.mem_cons_self p pre)
    simp only [List.cons_append, List.map_cons]
    show (if pyStartswith (kvLine p.1 p.2) q = true then _ else fpvLines q _) = .ok v
    rw [h1, if_neg (by simp)]
    exact ih rest fun x hx => hpre x (List.mem_cons_of_mem p hx)

theorem fpvLines_notfound (q : Str) (hq : '=' ∉ q) :
    ∀ pairs : List (Str × Str),
      (∀ p ∈ pairs, pyStartswith p.1 q = false) →
      fpvLines q (pairs.map (fun p => kvLine p.1 p.2)) = .error fpvNotFound := by
  intro pairs
  induction pairs with
  | nil => intro _; rfl
  | cons p pairs ih =>
    intro hall
    have h1 : pyStartswith (kvLine p.1 p.2) q = false := by
      rw [pyStartswith_keyline hq]
      exact hall p (List.mem_cons_self p pairs)
    simp only [List.map_cons]
    show (if pyStartswith (kvLine p.1 p.2) q = true then _ else fpvLines q _) = .error fpvNotFound
    rw [h1, if_neg (by simp)]
    exact ih fun x hx => hall x (List.mem_cons_of_mem p hx)

/-! ## Claim theorems -/

/-- C9: the machine-listing parser produces a list only through the
blank-line branch: for every input whose split lines are all well-formed and
non-blank (for example, text not terminated by the expected CRLF sequence),
`parse_machines` reaches the end of the input and returns no list at all
(Python `None`, modelled `.ok none`) rather than the machines it parsed. -/
theorem c9_no_blank_line_yields_none (text : Str)
    (h : ∀ l ∈ splitCRLF text, l ≠ [] ∧ vmLineOk l = true) :
    parse_machines text = .ok none := by
  rw [parse_machines]
  generalize splitCRLF text = lines at h
  induction lines with
  | nil => rfl
  | cons l ls ih =>
    obtain ⟨hne, hok⟩ := h l (List.mem_cons_self l ls)
    have htail := ih fun x hx => h x (List.mem_cons_of_mem l hx)
    show (if l = [] then _ else if vmLineOk l = true then _ else _) = Except.ok none
    rw [if_neg hne, if_pos hok, htail]

/-- C9 witness: a single well-formed line with no terminating CRLF parses to
`None`. -/
theorem c9_witness : parse_machines textC9 = .ok none :=
  c9_no_blank_line_yields_none textC9 (by decide)

/-- C6: (1) the listing parser raises a hard parse error on the first
non-blank line that fails the layout validation (two quotes, four dashes,
one brace pair), yielding no partial list, and (2) a blank line terminates
the listing, yielding exactly the machines parsed from the preceding lines
in order. -/
theorem c6_parse_machines_fail_fast :
    (∀ (text : Str) (pre : List Str) (bad : Str) (rest : List Str),
        splitCRLF text = pre ++ bad :: rest →
        (∀ l ∈ pre, l ≠ [] ∧ vmLineOk l = true) →
        bad ≠ [] → vmLineOk bad = false →
        parse_machines text = .error pmError) ∧
    (∀ (text : Str) (pre : List Str) (rest : List Str),
        splitCRLF text = pre ++ [] :: rest →
        (∀ l ∈ pre, l ≠ [] ∧ vmLineOk l = true) →
        parse_machines text = .ok (some (pre.map parse_vm_line))) := by
  constructor
  · intro text pre bad rest hsplit hpre hbadne hbadok
    rw [parse_machines, hsplit]
    clear hsplit
    induction pre with
    | nil =>
      show (if bad = [] then _ else if vmLineOk bad = true then _ else _) = _
      rw [if_neg hbadne, hbadok, if_neg (by simp)]
    | cons p pre ih =>
      obtain ⟨hp1, hp2⟩ := hpre p (List.mem_cons_self p pre)
      have htail := ih fun x hx => hpre x (List.mem_cons_of_mem p hx)
      rw [List.cons_append]
      show (if p = [] then _ else if vmLineOk p = true then _ else _) = _
      rw [if_neg hp1, if_pos hp2, htail]
  · intro text pre rest hsplit hpre
    rw [parse_machines, hsplit]
    clear hsplit
    induction pre with
    | nil => rfl
    | cons p pre ih =>
      obtain ⟨hp1, hp2⟩ := hpre p (List.mem_cons_self p pre)
      have htail := ih fun x hx => hpre x (List.mem_cons_of_mem p hx)
      rw [List.cons_append]
      show (if p = [] then _ else if vmLineOk p = true then _ else _) = _
      rw [if_neg hp1, if_pos hp2, htail]
      rfl

/-- C6 witness: a listing whose second line is malformed errors out; a
listing with one good line and a blank terminator yields that machine. -/
theorem c6_witness :
    parse_machines textC6bad = .error pmError ∧
    parse_machines textC6ok = .ok (some ([lineA].map parse_vm_line)) :=
  ⟨c6_parse_machines_fail_fast.1 textC6bad [lineA] lineBad [lineRest]
      (by decide) (by decide) (by decide) (by decide),
   c6_parse_machines_fail_fast.2 textC6ok [lineA] [lineJunk] (by decide) (by decide)⟩

/-- C3: the completion stage is a pure function of the single captured
dispatch response and issues no fresh status query: (1) when the response
contains the sentinel the stage succeeds after exactly one check with an
empty trace (no polling, no waiting — the orchestrator proceeds directly to
shutdown); (2) when it does not, the stage reports a timeout after exactly
its 20 checks, sleeping between checks; (3) the stage never issues a command
— its trace holds sleeps only. -/
theorem c3_completion_reinspects_same_text :
    (∀ r : Str, pyIn flag r = true → completion_go r 20 = ⟨false, 1, []⟩) ∧
    (∀ r : Str, pyIn flag r = false →
        completion_go r 20 = ⟨true, 20, List.replicate 20 (Ev.sleep 30)⟩) ∧
    (∀ (r : Str) (n : Nat), ∀ e ∈ (completion_go r n).trace, e = Ev.sleep 30) := by
  refine ⟨fun r h => ?_, fun r h => completion_go_missed h 20, fun r n e he => ?_⟩
  · rw [show (20 : Nat) = 19 + 1 from rfl, completion_go_found h]
  · cases hf : pyIn flag r with
    | true =>
      cases n with
      | zero => exact absurd he (List.not_mem_nil e)
      | succ n =>
        rw [completion_go_found hf] at he
        exact absurd he (List.not_mem_nil e)
    | false =>
      rw [completion_go_missed hf] at he
      exact List.eq_of_mem_replicate he

/-- C3 witness: a response equal to the sentinel completes after one check
with an empty trace; an empty response exhausts the 20 checks. -/
theorem c3_witness :
    completion_go flag 20 = ⟨false, 1, []⟩ ∧
    completion_go [] 20 = ⟨true, 20, List.replicate 20 (Ev.sleep 30)⟩ :=
  ⟨c3_completion_reinspects_same_text.1 flag (by decide),
   c3_completion_reinspects_same_text.2.1 [] (by decide)⟩

/-- C4: on every machine run, against every environment, the guest update
command is dispatched at most 5 times and the completion check is performed
at most 20 times. -/
theorem c4_budgets_respected (env : Nat → Str) (vm : VM) (args : Args) (fuel : Nat) :
    (update env vm args fuel).dispatch_attempts ≤ 5 ∧
    (update env vm args fuel).completion_checks ≤ 20 := by
  unfold update
  split
  · exact ⟨Nat.zero_le _, Nat.zero_le _⟩
  · split
    · split
      · exact ⟨Nat.zero_le _, Nat.zero_le _⟩
      · split
        · exact ⟨Nat.zero_le _, Nat.zero_le _⟩
        · split
          · refine ⟨dispatch_attempts_le env vm args _ 2 5, ?_⟩
            show (if (dispatch_go env vm args (env 1) 2 5).error_detected = true
                then (⟨true, 0, []⟩ : CompletionOut)
                else completion_go (dispatch_go env vm args (env 1) 2 5).response 20).checks ≤ 20
            split
            · exact Nat.zero_le _
            · exact completion_checks_le _ 20
          · exact ⟨Nat.zero_le _, Nat.zero_le _⟩
    · exact ⟨Nat.zero_le _, Nat.zero_le _⟩

/-- C1: evaluation of the code at the failing input.  Against `envC1` the
machine passes eligibility, the start is acknowledged, every one of the 5
dispatch attempts carries the `error:` marker (so the dispatch budget is
exhausted and `error_detected` is set, and the completion sentinel is never
observed), yet `update` returns `True` — the orchestrator reports the
machine as successfully updated instead of failed, because line 245 of the
source returns `True` unconditionally after shutdown. -/
theorem c1_failed_run_reported_successful :
    (update envC1 vm0 args0 1).result = .ret true ∧
    (update envC1 vm0 args0 1).dispatch_attempts = 5 ∧
    (update envC1 vm0 args0 1).error_detected = true ∧
    (update envC1 vm0 args0 1).completion_checks = 0 := by
  refine ⟨rfl, rfl, rfl, rfl⟩

/-- C2 counterexample: a powered-off machine reporting guest type
`Windows10_64` — a Windows variant, but not the exact string `Windows` — is
not skipped: the orchestrator issues its start command. -/
theorem c2_counterexample_windows_variant_started :
    find_property_value (envWinVar 0) ostypeKey = .ok winVarStr ∧
    Ev.call (startvm_cmd vm0) ∈ (update envWinVar vm0 args0 0).trace := by
  refine ⟨rfl, by decide⟩

/-- C2 (amended): for every machine whose reported power state is not
`poweroff`, or whose reported guest OS type is exactly the string `Windows`
(the source compares for equality, so other Windows variants are not
covered), `update` returns `False` and the trace holds only the single
eligibility query — no start command and no guest dispatch. -/
theorem c2_ineligible_never_started (env : Nat → Str) (vm : VM) (args : Args) (fuel : Nat)
    (h : (∃ st, find_property_value (env 0) vmstateKey = .ok st ∧ st ≠ pwStr) ∨
         (find_property_value (env 0) vmstateKey = .ok pwStr ∧
          find_property_value (env 0) ostypeKey = .ok windowsStr)) :
    (update env vm args fuel).result = .ret false ∧
    (update env vm args fuel).trace = [Ev.call (showvminfo_cmd vm)] := by
  unfold update
  rcases h with ⟨st, hst, hne⟩ | ⟨hpw, hwin⟩
  · simp only [hst]
    rw [if_neg hne]
    exact ⟨rfl, rfl⟩
  · simp only [hpw, hwin]
    rw [if_pos trivial, if_pos trivial]
    exact ⟨rfl, rfl⟩

/-- C2 witness: a machine reported `running` is skipped with only the
eligibility query issued. -/
theorem c2_witness :
    (update envRun vm0 args0 0).result = .ret false ∧
    (update envRun vm0 args0 0).trace = [Ev.call (showvminfo_cmd vm0)] :=
  c2_ineligible_never_started envRun vm0 args0 0 (Or.inl ⟨runStr, rfl, by decide⟩)

/-- C8: (1) for every machine that passed eligibility and whose start was
acknowledged, the orchestrator issues the graceful `acpipowerbutton` signal
— whatever the dispatch and completion stages did; (2) the shutdown poll has
no retry budget: however much fuel it is given, if no poll reports
`poweroff` it is still polling (`hang`); (3) it returns `True` as soon as a
poll reports `poweroff`. -/
theorem c8_always_shutdown_unbounded_poll :
    (∀ (env : Nat → Str) (vm : VM) (args : Args) (fuel : Nat) (os : Str),
        find_property_value (env 0) vmstateKey = .ok pwStr →
        find_property_value (env 0) ostypeKey = .ok os →
        os ≠ windowsStr →
        pyIn startedMarker (env 1) = true →
        Ev.call (powerbutton_cmd vm) ∈ (update env vm args fuel).trace) ∧
    (∀ (env : Nat → Str) (vm : VM) (k fuel : Nat),
        (∀ j, j < fuel →
            ∃ s, find_property_value (env (k + j)) vmstateKey = .ok s ∧ s ≠ pwStr) →
        (shutdown_go env vm k fuel).result = .hang) ∧
    (∀ (env : Nat → Str) (vm : VM) (k fuel : Nat),
        find_property_value (env k) vmstateKey = .ok pwStr → 0 < fuel →
        (shutdown_go env vm k fuel).result = .ret true) := by
  refine ⟨fun env vm args fuel os h1 h2 h3 h4 => ?_,
          fun env vm k fuel h => shutdown_go_hang env vm fuel k h,
          fun env vm k fuel h hf => (shutdown_go_first_poll env vm k fuel h hf).1⟩
  unfold update
  simp only [h1, h2]
  rw [if_pos trivial, if_neg h3, if_pos h4]
  simp [List.mem_append]

/-- C8 witness: a run with acknowledged start issues the power-button
signal; a constant `running` environment leaves the poll hanging after 3
iterations; a constant `poweroff` environment returns `True`. -/
theorem c8_witness :
    Ev.call (powerbutton_cmd vm0) ∈ (update envC8 vm0 args0 1).trace ∧
    (shutdown_go envRun vm0 0 3).result = .hang ∧
    (shutdown_go envPw vm0 0 1).result = .ret true :=
  ⟨c8_always_shutdown_unbounded_poll.1 envC8 vm0 args0 1 ubuntuStr rfl rfl
      (by decide) (by decide),
   c8_always_shutdown_unbounded_poll.2.1 envRun vm0 0 3
      (fun j hj => ⟨runStr, rfl, by decide⟩),
   c8_always_shutdown_unbounded_poll.2.2 envPw vm0 0 1 rfl (by decide)⟩

/-- C5 counterexample: an options record with autoremove disabled whose
password is the string `autoremove` yields a command that does contain the
text `autoremove`, so the claim's universal "contains no autoremove
invocation" fails as stated. -/
theorem c5_counterexample_password_autoremove :
    argsAuto.remove = false ∧
    pyIn autoStr (get_update_command ⟨true, false⟩ argsAuto) = true :=
  ⟨rfl, by decide⟩

/-- C5 (amended): for every options record with autoremove disabled whose
password does not itself contain the text `autoremove`, the command built
for the apt-only manager set contains `apt update` and `apt upgrade`,
contains no `autoremove`, and ends with the sentinel echo; and for the empty
manager set the command is exactly the (non-empty) sentinel echo. -/
theorem c5_update_command_shape :
    (∀ args : Args, args.remove = false → pyIn autoStr args.password = false →
        pyIn aptUpdateStr (get_update_command ⟨true, false⟩ args) = true ∧
        pyIn aptUpgradeStr (get_update_command ⟨true, false⟩ args) = true ∧
        pyIn autoStr (get_update_command ⟨true, false⟩ args) = false ∧
        ∃ p, get_update_command ⟨true, false⟩ args = p ++ echoFlag) ∧
    (∀ args : Args, get_update_command ⟨false, false⟩ args = echoFlag) := by
  constructor
  · intro args hr hpw
    have hcmd : get_update_command ⟨true, false⟩ args =
        "echo ".toList ++ (args.password ++ (" | sudo -S".toList ++ (" apt update && ".toList ++
          ("echo ".toList ++ (args.password ++ (" | sudo -S".toList ++
            (" apt upgrade -y && ".toList ++ echoFlag))))))) := by
      simp [get_update_command, sudo_wrap, hr, echoFlag, List.append_assoc]
    refine ⟨?_, ?_, ?_, ?_⟩
    · rw [hcmd]
      exact pyIn_append_left _ (pyIn_append_left _ (pyIn_append_left _
        (pyIn_append_right _ (by decide))))
    · rw [hcmd]
      exact pyIn_append_left _ (pyIn_append_left _ (pyIn_append_left _ (pyIn_append_left _
        (pyIn_append_left _ (pyIn_append_left _ (pyIn_append_left _
          (pyIn_append_right _ (by decide))))))))
    · rw [hcmd]
      have hsp : ' ' ∉ autoStr := by decide
      have hne : autoStr ≠ [] := by decide
      show pyIn autoStr ("echo".toList ++ ' ' :: (args.password ++ ' ' ::
          (midAptUpdate ++ ' ' :: (args.password ++ ' ' ::
            (midAptUpgrade ++ ' ' :: flag))))) = false
      simp only [pyIn_split_space hsp hne, hpw]
      decide
    · refine ⟨"echo ".toList ++ (args.password ++ (" | sudo -S".toList ++
        (" apt update && ".toList ++ ("echo ".toList ++ (args.password ++
          (" | sudo -S".toList ++ " apt upgrade -y && ".toList)))))), ?_⟩
      rw [hcmd]
      simp [List.append_assoc]
  · intro args
    rfl

/-- C5 witness: instantiation at a password free of the marker substrings. -/
theorem c5_witness :
    (pyIn aptUpdateStr (get_update_command ⟨true, false⟩ args0) = true ∧
     pyIn aptUpgradeStr (get_update_command ⟨true, false⟩ args0) = true ∧
     pyIn autoStr (get_update_command ⟨true, false⟩ args0) = false ∧
     ∃ p, get_update_command ⟨true, false⟩ args0 = p ++ echoFlag) ∧
    get_update_command ⟨false, false⟩ args0 = echoFlag :=
  ⟨c5_update_command_shape.1 args0 rfl (by decide), c5_update_command_shape.2 args0⟩

/-- C10 counterexample: with no manager present the command is the bare
sentinel echo, and a password that happens to occur in that text (here the
password `echo`) is "contained" in the command, so the claim's "contains no
password text" fails as stated. -/
theorem c10_counterexample_password_in_sentinel_echo :
    pyIn argsEcho.password (get_update_command ⟨false, false⟩ argsEcho) = true := by
  decide

/-- C10 (amended): (1) whenever apt is present, the built command contains
the privilege wrapper `echo <password> | sudo -S` immediately before the
`apt update` and `apt upgrade` invocations; (2) whenever apt is present and
autoremove is enabled, likewise before the `apt autoremove -y` invocation;
(3) whenever snap is present, likewise before `snap refresh`; (4) with no
manager present the command is exactly the sentinel echo, which (5)
contains no `sudo` text and (6) contains the password only if the password
occurs in the sentinel echo itself. -/
theorem c10_sudo_wrapper_placement :
    (∀ (args : Args) (snap : Bool),
        pyIn (sudo_wrap args.password ++ spAptUpdate)
            (get_update_command ⟨true, snap⟩ args) = true ∧
        pyIn (sudo_wrap args.password ++ spAptUpgrade)
            (get_update_command ⟨true, snap⟩ args) = true) ∧
    (∀ (args : Args) (snap : Bool), args.remove = true →
        pyIn (sudo_wrap args.password ++ spAptAutoremove)
            (get_update_command ⟨true, snap⟩ args) = true) ∧
    (∀ (args : Args) (apt : Bool),
        pyIn (sudo_wrap args.password ++ spSnapRefresh)
            (get_update_command ⟨apt, true⟩ args) = true) ∧
    (∀ args : Args, get_update_command ⟨false, false⟩ args = echoFlag) ∧
    (∀ args : Args, pyIn sudoStr (get_update_command ⟨false, false⟩ args) = false) ∧
    (∀ args : Args, pyIn args.password echoFlag = false →
        pyIn args.password (get_update_command ⟨false, false⟩ args) = false) := by
  refine ⟨fun args snap => ⟨?_, ?_⟩, fun args snap hr => ?_, fun args apt => ?_,
          fun args => rfl,
          fun args => by show pyIn sudoStr echoFlag = false; decide,
          fun args h => h⟩
  · have h1 : get_update_command ⟨true, snap⟩ args =
        sudo_wrap args.password ++ (" apt update && ".toList ++
          (sudo_wrap args.password ++ (" apt upgrade -y && ".toList ++
            ((if args.remove = true then
                sudo_wrap args.password ++ " apt autoremove -y && ".toList else []) ++
             ((if snap = true then
                sudo_wrap args.password ++ " snap refresh && ".toList else []) ++
              ("echo ".toList ++ flag)))))) := by
      simp [get_update_command, List.append_assoc]
    rw [h1]
    exact pyIn_of_startswith _ _ (prefix_match _ spAptUpdate _ _ rfl)
  · have h2 : get_update_command ⟨true, snap⟩ args =
        (sudo_wrap args.password ++ " apt update && ".toList) ++
          (sudo_wrap args.password ++ (" apt upgrade -y && ".toList ++
            ((if args.remove = true then
                sudo_wrap args.password ++ " apt autoremove -y && ".toList else []) ++
             ((if snap = true then
                sudo_wrap args.password ++ " snap refresh && ".toList else []) ++
              ("echo ".toList ++ flag))))) := by
      simp [get_update_command, List.append_assoc]
    rw [h2]
    exact pyIn_append_left _ (pyIn_of_startswith _ _ (prefix_match _ spAptUpgrade _ _ rfl))
  · have h4 : get_update_command ⟨true, snap⟩ args =
        (sudo_wrap args.password ++ " apt update && ".toList) ++
          ((sudo_wrap args.password ++ " apt upgrade -y && ".toList) ++
            (sudo_wrap args.password ++ (" apt autoremove -y && ".toList ++
              ((if snap = true then
                  sudo_wrap args.password ++ " snap refresh && ".toList else []) ++
               ("echo ".toList ++ flag))))) := by
      simp [get_update_command, hr, List.append_assoc]
    rw [h4]
    exact pyIn_append_left _ (pyIn_append_left _
      (pyIn_of_startswith _ _ (prefix_match _ spAptAutoremove _ _ rfl)))
  · have h3 : get_update_command ⟨apt, true⟩ args =
        (if apt = true then
            sudo_wrap args.password ++ (" apt update && ".toList ++
              (sudo_wrap args.password ++ (" apt upgrade -y && ".toList ++
                (if args.remove = true then
                  sudo_wrap args.password ++ " apt autoremove -y && ".toList else []))))
          else []) ++
          (sudo_wrap args.password ++ (" snap refresh && ".toList ++
            ("echo ".toList ++ flag))) := by
      simp [get_update_command, List.append_assoc]
    rw [h3]
    exact pyIn_append_left _ (pyIn_of_startswith _ _ (prefix_match _ spSnapRefresh _ _ rfl))

/-- C10 witness: the autoremove conjunct instantiated at options with
autoremove enabled, and the password-absence conjunct at a password absent
from the sentinel echo. -/
theorem c10_witness :
    pyIn (sudo_wrap argsR.password ++ spAptAutoremove)
        (get_update_command ⟨true, false⟩ argsR) = true ∧
    pyIn args0.password (get_update_command ⟨false, false⟩ args0) = false :=
  ⟨c10_sudo_wrapper_placement.2.1 argsR false rfl,
   c10_sudo_wrapper_placement.2.2.2.2.2 args0 (by decide)⟩

/-- C7 counterexample: the extractor matches lines by key *prefix*, so in a
text whose first line is `VMStateChangeTime="x"`, querying the key
`VMState` — which does occur, on the second line, with value `poweroff` —
returns `x` instead; and in a text holding only `VMStateChangeTime="x"`,
querying `VMState` — which occurs on no line as a key — returns `x` instead
of raising a not-found failure. -/
theorem c7_counterexample_prefix_shadowing :
    textC7 = infoText [(vmsctKey, xStr), (vmstateKey, pwStr)] ∧
    find_property_value textC7 vmstateKey = .ok xStr ∧
    xStr ≠ pwStr ∧
    find_property_value textC7b vmstateKey = .ok xStr :=
  ⟨rfl, rfl, by decide, rfl⟩

/-- C7 (amended): over a machine-info text of well-formed `key="value"`
lines (keys free of `=`, `"` and CR, values free of CR), the extractor
returns exactly the value of the queried key provided the query is not a
prefix of any earlier line's key, and raises the not-found failure when the
query (itself `=`-free) is a prefix of no key. -/
theorem c7_property_extractor_roundtrip :
    (∀ (pairs pre rest : List (Str × Str)) (q v : Str),
        (∀ p ∈ pairs, '=' ∉ p.1 ∧ '\"' ∉ p.1 ∧ '\r' ∉ p.1 ∧ '\r' ∉ p.2) →
        pairs = pre ++ (q, v) :: rest →
        (∀ p ∈ pre, pyStartswith p.1 q = false) →
        find_property_value (infoText pairs) q = .ok v) ∧
    (∀ (pairs : List (Str × Str)) (q : Str),
        pairs ≠ [] →
        (∀ p ∈ pairs, '\r' ∉ p.1 ∧ '\r' ∉ p.2) →
        '=' ∉ q →
        (∀ p ∈ pairs, pyStartswith p.1 q = false) →
        find_property_value (infoText pairs) q = .error fpvNotFound) := by
  constructor
  · intro pairs pre rest q v hforms hsplit hpre
    have hmem : (q, v) ∈ pairs := hsplit ▸ List.mem_append_right pre (List.mem_cons_self _ _)
    have hq : '=' ∉ q := (hforms (q, v) hmem).1
    have hqq : '\"' ∉ q := (hforms (q, v) hmem).2.1
    have hne : pairs.map (fun p => kvLine p.1 p.2) ≠ [] := by
      rw [hsplit]
      simp
    have hcr : ∀ l ∈ pairs.map (fun p => kvLine p.1 p.2), '\r' ∉ l := by
      intro l hl
      obtain ⟨p, hp, hlp⟩ := List.mem_map.mp hl
      exact hlp ▸ cr_not_mem_kvLine (hforms p hp).2.2.1 (hforms p hp).2.2.2
    rw [find_property_value, infoText, splitCRLF_join hne hcr, hsplit]
    exact fpvLines_found q v hq hqq pre rest hpre
  · intro pairs q hps hcrs hq hall
    have hne : pairs.map (fun p => kvLine p.1 p.2) ≠ [] := by
      cases pairs with
      | nil => exact absurd rfl hps
      | cons p ps => simp
    have hcr : ∀ l ∈ pairs.map (fun p => kvLine p.1 p.2), '\r' ∉ l := by
      intro l hl
      obtain ⟨p, hp, hlp⟩ := List.mem_map.mp hl
      exact hlp ▸ cr_not_mem_kvLine (hcrs p hp).1 (hcrs p hp).2
    rw [find_property_value, infoText, splitCRLF_join hne hcr]
    exact fpvLines_notfound q hq pairs hall

/-- C7 witness: a present key round-trips to its value; an absent,
non-prefix key raises the not-found failure. -/
theorem c7_witness :
    find_property_value (infoText [(vmstateKey, pwStr)]) vmstateKey = .ok pwStr ∧
    find_property_value (infoText [(ostypeKey, windowsStr)]) vmstateKey =
      .error fpvNotFound :=
  ⟨c7_property_extractor_roundtrip.1 [(vmstateKey, pwStr)] [] [] vmstateKey pwStr
      (by decide) rfl (by decide),
   c7_property_extractor_roundtrip.2 [(ostypeKey, windowsStr)] vmstateKey
      (by decide) (by decide) (by decide) (by decide)⟩
